import Mathlib

/-!
Verification of the open-inbox scripts (`fetch_email.py`, `send_email.py`,
`create_calendar_event.py`) against their natural-language specification.

The Python sources are shallowly embedded below: pure functions become Lean
functions, the token-file / OAuth side effects become explicit state passing
over an `AuthWorld` record, remote outcomes (refresh success, HTTP responses)
are supplied as explicit parameters, and fallible paths return `Option` or an
explicit result constructor (`exited` for `sys.exit`, `crashed` for an
uncaught Python exception).
-/

namespace OpenInbox

/-! ## Python truthiness helpers -/

/-- Truthiness of an optional string (`None` and `""` are falsy in Python). -/
def pyTruthyStr : Option String → Bool
  | none => false
  | some s => !s.isEmpty

/-- Truthiness of an optional integer (`None` and `0` are falsy in Python). -/
def pyTruthyOptInt : Option Int → Bool
  | none => false
  | some n => !(n == 0)

/-! ## Credential lifecycle

Embeds the `get_gmail_service` / `get_calendar_service` functions of the three
scripts, together with the behavior of the `google.oauth2.credentials`
library calls they make:
  * `Credentials.from_authorized_user_file(file, SCOPES)` builds a credential
    whose `scopes` are the *requested* scope list; the scope list stored in
    the file is not consulted;
  * `creds.valid` is `token is not None and not expired` (scopes play no
    role);
  * `creds.refresh(request)` rewrites the access token and clears expiry on
    success and raises an exception on failure;
  * `creds.to_json()` serializes token, refresh token, expiry and the
    credential's (requested) scope list.
-/

/-- Contents of the persisted `token.json` artifact. -/
structure TokenInfo where
  token : Option String
  refreshToken : Option String
  expired : Bool
  grantedScopes : List String
deriving DecidableEq

/-- An in-memory `google.oauth2.credentials.Credentials` object. -/
structure Credentials where
  token : Option String
  refreshToken : Option String
  expired : Bool
  scopes : List String
deriving DecidableEq

/-- `Credentials.from_authorized_user_file` / `from_authorized_user_info`:
the `scopes` argument becomes the credential's scope list; the granted scope
list recorded in the file is ignored. -/
def from_authorized_user_info (info : TokenInfo) (scopes : List String) : Credentials :=
  { token := info.token
    refreshToken := info.refreshToken
    expired := info.expired
    scopes := scopes }

/-- `creds.valid`: a token is present and not expired. -/
def Credentials.valid (c : Credentials) : Bool :=
  c.token.isSome && !c.expired

/-- Truthiness of `creds.refresh_token`. -/
def Credentials.hasRefreshToken (c : Credentials) : Bool :=
  pyTruthyStr c.refreshToken

/-- Truthiness of the refresh token recorded in the token file. -/
def TokenInfo.hasRefreshToken (info : TokenInfo) : Bool :=
  pyTruthyStr info.refreshToken

/-- `creds.to_json()`: what gets written back to `token.json`. -/
def Credentials.toJsonInfo (c : Credentials) : TokenInfo :=
  { token := c.token
    refreshToken := c.refreshToken
    expired := c.expired
    grantedScopes := c.scopes }

/-- `SCOPES` of `fetch_email.py`. -/
def fetchScopes : List String :=
  [ "https://www.googleapis.com/auth/gmail.readonly"
  , "https://www.googleapis.com/auth/gmail.modify"
  , "https://www.googleapis.com/auth/gmail.send" ]

/-- `SCOPES` of `send_email.py`. -/
def sendScopes : List String :=
  [ "https://www.googleapis.com/auth/gmail.send" ]

/-- `SCOPES` of `create_calendar_event.py`. -/
def calendarScopes : List String :=
  [ "https://www.googleapis.com/auth/gmail.readonly"
  , "https://www.googleapis.com/auth/gmail.modify"
  , "https://www.googleapis.com/auth/gmail.send"
  , "https://www.googleapis.com/auth/calendar"
  , "https://www.googleapis.com/auth/calendar.events" ]

/-- The full union of scopes any entry point of the system ever uses:
mail read, modify, send, plus calendar and calendar-events access. -/
def fullScopeUnion : List String :=
  [ "https://www.googleapis.com/auth/gmail.readonly"
  , "https://www.googleapis.com/auth/gmail.modify"
  , "https://www.googleapis.com/auth/gmail.send"
  , "https://www.googleapis.com/auth/calendar"
  , "https://www.googleapis.com/auth/calendar.events" ]

/-- Remote/interactive outcomes supplied to an authentication run: whether
the token-endpoint refresh call succeeds, the access token it returns, and
the token material granted by the interactive browser flow. -/
structure AuthEnv where
  refreshOk : Bool
  refreshedToken : String
  flowToken : String
  flowRefreshToken : Option String
deriving DecidableEq

/-- Observable state of an authentication run: the persisted `token.json`
(absent or present), whether the client-secrets `credentials` file exists,
how many refresh calls were issued, and the scope lists passed to each
interactive `InstalledAppFlow` run. -/
structure AuthWorld where
  tokenFile : Option TokenInfo
  credentialsFile : Bool
  refreshCalls : Nat
  flowRequests : List (List String)
deriving DecidableEq

/-- Result of a `get_*_service` call: a service bound to a credential,
a `sys.exit(code)`, or an uncaught Python exception. -/
inductive AuthResult where
  | service (creds : Credentials)
  | exited (code : Nat)
  | crashed
deriving DecidableEq

/-- `creds.refresh(Request())` on success: access token rewritten, expiry
cleared, refresh token and scopes preserved. -/
def Credentials.refreshedBy (c : Credentials) (env : AuthEnv) : Credentials :=
  { c with token := some env.refreshedToken, expired := false }

/-- `InstalledAppFlow.from_client_secrets_file(...).run_local_server()`:
grants a fresh, valid credential carrying the requested scopes. -/
def runInstalledAppFlow (env : AuthEnv) (scopes : List String) : Credentials :=
  { token := some env.flowToken
    refreshToken := env.flowRefreshToken
    expired := false
    scopes := scopes }

/-- The `else` branch shared by `fetch_email.get_gmail_service` and
`create_calendar_event.get_calendar_service`: exit if the client-secrets
file is missing, otherwise drive the interactive flow and persist the
granted credential. -/
def flowOrExit (scopes : List String) (env : AuthEnv) (w : AuthWorld) :
    AuthResult × AuthWorld :=
  if !w.credentialsFile then (.exited 1, w)
  else
    let c2 := runInstalledAppFlow env scopes
    (.service c2,
      { w with
          flowRequests := w.flowRequests ++ [scopes]
          tokenFile := some c2.toJsonInfo })

/-- Common body of `fetch_email.get_gmail_service` and
`create_calendar_event.get_calendar_service` (the two functions are
line-for-line identical up to the scope list): load `token.json` if present;
return the credential when valid; refresh (and persist) when expired with a
refresh token, crashing if the refresh call raises; otherwise run the
interactive flow (and persist) or exit when no client-secrets file exists. -/
def googleServiceAuth (scopes : List String) (env : AuthEnv) (w : AuthWorld) :
    AuthResult × AuthWorld :=
  match w.tokenFile with
  | none => flowOrExit scopes env w
  | some info =>
    let c := from_authorized_user_info info scopes
    if c.valid then (.service c, w)
    else if c.expired && c.hasRefreshToken then
      if env.refreshOk then
        let c2 := c.refreshedBy env
        (.service c2,
          { w with
              refreshCalls := w.refreshCalls + 1
              tokenFile := some c2.toJsonInfo })
      else (.crashed, { w with refreshCalls := w.refreshCalls + 1 })
    else flowOrExit scopes env w

/-- `fetch_email.get_gmail_service`. -/
def fetch_get_gmail_service : AuthEnv → AuthWorld → AuthResult × AuthWorld :=
  googleServiceAuth fetchScopes

/-- `create_calendar_event.get_calendar_service`. -/
def calendar_get_calendar_service : AuthEnv → AuthWorld → AuthResult × AuthWorld :=
  googleServiceAuth calendarScopes

/-- `send_email.get_gmail_service`: exits when `token.json` is missing,
returns a valid credential as-is, refreshes an expired credential that has a
refresh token (crashing if the refresh call raises) but writes nothing back
to `token.json`, and exits when the credential is neither valid nor
refreshable. -/
def send_get_gmail_service (env : AuthEnv) (w : AuthWorld) :
    AuthResult × AuthWorld :=
  match w.tokenFile with
  | none => (.exited 1, w)
  | some info =>
    let c := from_authorized_user_info info sendScopes
    if c.valid then (.service c, w)
    else if c.expired && c.hasRefreshToken then
      if env.refreshOk then
        (.service (c.refreshedBy env), { w with refreshCalls := w.refreshCalls + 1 })
      else (.crashed, { w with refreshCalls := w.refreshCalls + 1 })
    else (.exited 1, w)

/-! ## Mail fetching, memo creation and the sync pipeline

Embeds `get_unread_emails`, `mark_as_read`, `create_memo`,
`email_to_memo_content` and the per-item loop of `main` in
`fetch_email.py`. Message payloads carry their body data already
base64-url-decoded and UTF-8-decoded with `errors='ignore'` (that decode is
total); a missing `data` key decodes to the empty string. -/

/-- One entry of `payload['parts']`: a MIME type and the optional decoded
`body.data`. -/
structure MessagePart where
  mimeType : String
  data : Option String
deriving DecidableEq

/-- A fetched message payload: its headers, the optional `parts` list and the
optional top-level `body.data`. -/
structure MessagePayload where
  headers : List (String × String)
  parts : Option (List MessagePart)
  bodyData : Option String
deriving DecidableEq

/-- Decoding of an optional `data` field: `part['body'].get('data', '')`
decoded; absent data yields the empty string. -/
def decodeData : Option String → String
  | none => ""
  | some s => s

/-- The MailItem assembled per message by `get_unread_emails`. -/
structure MailItem where
  id : String
  subject : String
  sender : String
  date : String
  body : String
deriving DecidableEq

/-- `headers = {h['name']: h['value'] for h in ...}; headers.get(k)`: a dict
comprehension keeps the last pair for a repeated name. -/
def headerLookup (hs : List (String × String)) (k : String) : Option String :=
  (hs.reverse.find? (fun h => h.1 == k)).map (fun h => h.2)

/-- The body-extraction policy of `get_unread_emails`: with a `parts` list,
the first `text/plain` part's decoded data (empty when no such part); without
one, the decoded top-level `body.data` when present; otherwise empty. -/
def extract_body (p : MessagePayload) : String :=
  match p.parts with
  | some parts =>
    match parts.find? (fun part => part.mimeType == "text/plain") with
    | some part => decodeData part.data
    | none => ""
  | none =>
    match p.bodyData with
    | some d => d
    | none => ""

/-- The record appended to `emails` for one message: header defaults
substituted via `headers.get(...)` and the body truncated to 5000
characters (`body[:5000]`). -/
def to_mail_item (msgId : String) (p : MessagePayload) : MailItem :=
  { id := msgId
    subject := (headerLookup p.headers "Subject").getD "(no subject)"
    sender := (headerLookup p.headers "From").getD "(unknown sender)"
    date := (headerLookup p.headers "Date").getD ""
    body := String.mk ((extract_body p).data.take 5000) }

/-- The HTTP response to the memo-creation POST. -/
structure HttpResponse where
  status : Nat
  text : String
deriving DecidableEq

/-- Outcome of `create_memo`: `misconfigured` for the missing-token early
return, `created` for the `True` return, and `rejected` for the `False`
return (which reports `response.status_code` and `response.text`). -/
inductive MemoResult where
  | misconfigured
  | created
  | rejected (status : Nat) (body : String)
deriving DecidableEq

/-- `create_memo(content)`: fails fast when `MEMOS_API_TOKEN` is unset,
returns success exactly when the response status is `200`, and otherwise
reports the remote status code and response body. -/
def create_memo (apiToken : Option String) (resp : HttpResponse) : MemoResult :=
  if !pyTruthyStr apiToken then .misconfigured
  else if resp.status == 200 then .created
  else .rejected resp.status resp.text

/-- The f-string template of `email_to_memo_content`. -/
def memoTemplate (sender subject date body : String) : String :=
  "#inbox #email\n\n**From:** " ++ sender ++ "\n**Subject:** " ++ subject ++
    "\n**Date:** " ++ date ++ "\n\n---\n\n" ++ body ++ "\n"

/-- `email_to_memo_content(email)`. -/
def email_to_memo_content (e : MailItem) : String :=
  memoTemplate e.sender e.subject e.date e.body

/-- Observable remote calls issued by the per-item loop of
`fetch_email.main`. -/
inductive SyncEvent where
  | memoCreate (id : String) (ok : Bool)
  | markRead (id : String)
deriving DecidableEq

/-- The per-item loop of `fetch_email.main`: for each email in listing
order, submit `email_to_memo_content` to `create_memo` (its success an
environment function of the posted content) and call `mark_as_read` exactly
when the submission succeeded. The value is the trace of remote calls. -/
def run_pipeline (sink : String → Bool) : List MailItem → List SyncEvent
  | [] => []
  | e :: rest =>
    if sink (email_to_memo_content e) then
      SyncEvent.memoCreate e.id true :: SyncEvent.markRead e.id :: run_pipeline sink rest
    else
      SyncEvent.memoCreate e.id false :: run_pipeline sink rest

/-! ## Calendar event construction

Embeds `create_event`, `parse_datetime` and the start/end construction of
`main` in `create_calendar_event.py`. `datetime.strptime` is embedded at the
character level following CPython's `_strptime` field patterns
(`%Y` is exactly four digits; `%m` is `1[0-2]|0[1-9]|[1-9]`; `%d` is
`3[01]|[12]\d|0[1-9]|[1-9]`; `%H` is `2[0-3]|[0-1]\d|\d`; `%M` and `%S` are
`[0-5]\d|\d`; the whole string must be consumed), with the `datetime`
constructor's range validation applied to the parsed fields. -/

/-- A Google Calendar `start`/`end` object: a `dateTime`, a `date`, and an
optional `timeZone`. -/
structure GTime where
  dateTime : Option String
  date : Option String
  timeZone : Option String
deriving DecidableEq

/-- One entry of a reminders `overrides` list. -/
structure ReminderOverride where
  method : String
  minutes : Int
deriving DecidableEq

/-- The `reminders` object attached to an event. -/
structure Reminders where
  useDefault : Bool
  overrides : List ReminderOverride
deriving DecidableEq

/-- The event body `create_event` sends to `events().insert`; optional keys
that the code leaves out of the dict are `none`. -/
structure EventBody where
  summary : String
  start : GTime
  endTime : GTime
  description : Option String
  location : Option String
  reminders : Option Reminders
deriving DecidableEq

/-- The body construction of `create_event(service, title, start, end,
description, location, reminder_minutes)`: description and location are
added only when truthy, and the reminder override only when
`reminder_minutes` is truthy (nonzero and not `None`). -/
def create_event_body (title : String) (start endTime : GTime)
    (description location : Option String) (reminder_minutes : Option Int) :
    EventBody :=
  { summary := title
    start := start
    endTime := endTime
    description := if pyTruthyStr description then description else none
    location := if pyTruthyStr location then location else none
    reminders :=
      if pyTruthyOptInt reminder_minutes then
        some { useDefault := false
               overrides := [{ method := "popup", minutes := reminder_minutes.getD 0 }] }
      else none }

/-- A naive `datetime.datetime` value. -/
structure PyDateTime where
  year : Nat
  month : Nat
  day : Nat
  hour : Nat
  minute : Nat
  second : Nat
deriving DecidableEq

/-- Numeric value of a decimal digit character. -/
def digVal (c : Char) : Nat := c.toNat - '0'.toNat

/-- `%Y`: exactly four decimal digits. -/
def pYear : List Char → Option (Nat × List Char)
  | a :: b :: c :: d :: rest =>
    if a.isDigit && b.isDigit && c.isDigit && d.isDigit then
      some (1000 * digVal a + 100 * digVal b + 10 * digVal c + digVal d, rest)
    else none
  | _ => none

/-- A one-or-two-digit numeric field: the two-digit reading is taken when
both characters are digits and the two-digit value matches the field's
pattern, else the one-digit reading when it matches. This reproduces the
regex alternations of `_strptime` (a locally-viable two-digit reading whose
continuation fails leaves a digit where the format expects a literal or the
end of input, so the one-digit backtrack also fails). -/
def pNum2 (twoOk oneOk : Nat → Bool) : List Char → Option (Nat × List Char)
  | a :: b :: rest =>
    if a.isDigit && b.isDigit && twoOk (10 * digVal a + digVal b) then
      some (10 * digVal a + digVal b, rest)
    else if a.isDigit && oneOk (digVal a) then
      some (digVal a, b :: rest)
    else none
  | [a] =>
    if a.isDigit && oneOk (digVal a) then some (digVal a, []) else none
  | [] => none

/-- A literal character of the format string. -/
def pChar (t : Char) : List Char → Option (List Char)
  | c :: rest => if c = t then some rest else none
  | [] => none

/-- Two-digit values accepted by `%m` (`1[0-2]|0[1-9]`). -/
def monthTwoOk (v : Nat) : Bool := 1 ≤ v && v ≤ 12

/-- One-digit values accepted by `%m` (`[1-9]`). -/
def monthOneOk (v : Nat) : Bool := 1 ≤ v

/-- Two-digit values accepted by `%d` (`3[01]|[12]\d|0[1-9]`). -/
def dayTwoOk (v : Nat) : Bool := 1 ≤ v && v ≤ 31

/-- One-digit values accepted by `%d` (`[1-9]`). -/
def dayOneOk (v : Nat) : Bool := 1 ≤ v

/-- Two-digit values accepted by `%H` (`2[0-3]|[0-1]\d`). -/
def hourTwoOk (v : Nat) : Bool := v ≤ 23

/-- One-digit values accepted by `%H` (`\d`). -/
def hourOneOk (_ : Nat) : Bool := true

/-- Two-digit values accepted by `%M`/`%S` (`[0-5]\d`). -/
def minSecTwoOk (v : Nat) : Bool := v ≤ 59

/-- One-digit values accepted by `%M`/`%S` (`\d`). -/
def minSecOneOk (_ : Nat) : Bool := true

/-- The Gregorian leap-year rule used by `datetime`. -/
def isLeapYear (y : Nat) : Bool :=
  (y % 4 == 0 && !(y % 100 == 0)) || y % 400 == 0

/-- Days in a month (months numbered 1-12; other inputs give 0). -/
def daysInMonth (m : Nat) (leap : Bool) : Nat :=
  match m with
  | 1 => 31
  | 2 => if leap then 29 else 28
  | 3 => 31
  | 4 => 30
  | 5 => 31
  | 6 => 30
  | 7 => 31
  | 8 => 31
  | 9 => 30
  | 10 => 31
  | 11 => 30
  | 12 => 31
  | _ => 0

/-- Range validation performed by the `datetime` constructor. -/
def dtOk (y m d h mi s : Nat) : Prop :=
  1 ≤ y ∧ y ≤ 9999 ∧ 1 ≤ m ∧ m ≤ 12 ∧ 1 ≤ d ∧
    d ≤ daysInMonth m (isLeapYear y) ∧ h ≤ 23 ∧ mi ≤ 59 ∧ s ≤ 59

instance (y m d h mi s : Nat) : Decidable (dtOk y m d h mi s) := by
  unfold dtOk; infer_instance

/-- Construction of a `datetime` from parsed fields, with its range checks
(`ValueError` on failure becomes `none`). -/
def mkDateTime (y m d h mi s : Nat) : Option PyDateTime :=
  if dtOk y m d h mi s then some ⟨y, m, d, h, mi, s⟩ else none

/-- `datetime.strptime` for the format `%Y-%m-%d{sep}%H:%M` (and, with
`withSec`, `%Y-%m-%d{sep}%H:%M:%S`), where `sep` is a space or `T`. -/
def strptimeCore (sep : Char) (withSec : Bool) (l : List Char) : Option PyDateTime :=
  (pYear l).bind (fun yr =>
  (pChar '-' yr.2).bind (fun l2 =>
  (pNum2 monthTwoOk monthOneOk l2).bind (fun mo =>
  (pChar '-' mo.2).bind (fun l4 =>
  (pNum2 dayTwoOk dayOneOk l4).bind (fun dy =>
  (pChar sep dy.2).bind (fun l6 =>
  (pNum2 hourTwoOk hourOneOk l6).bind (fun hr =>
  (pChar ':' hr.2).bind (fun l8 =>
  (pNum2 minSecTwoOk minSecOneOk l8).bind (fun mi =>
    if withSec then
      (pChar ':' mi.2).bind (fun l10 =>
      (pNum2 minSecTwoOk minSecOneOk l10).bind (fun sc =>
        if sc.2 = [] then mkDateTime yr.1 mo.1 dy.1 hr.1 mi.1 sc.1 else none))
    else
      if mi.2 = [] then mkDateTime yr.1 mo.1 dy.1 hr.1 mi.1 0 else none)))))))))

/-- The format cascade of `parse_datetime`: `'%Y-%m-%d %H:%M'`,
`'%Y-%m-%d %H:%M:%S'`, `'%Y-%m-%dT%H:%M'`, `'%Y-%m-%dT%H:%M:%S'`, first
success wins; `none` is the `ValueError` raised when all four fail. -/
def parse_datetime_dt (s : String) : Option PyDateTime :=
  match strptimeCore ' ' false s.data with
  | some dt => some dt
  | none =>
    match strptimeCore ' ' true s.data with
    | some dt => some dt
    | none =>
      match strptimeCore 'T' false s.data with
      | some dt => some dt
      | none => strptimeCore 'T' true s.data

/-- Zero-padding to two digits. -/
def pad2 (n : Nat) : String :=
  if n < 10 then "0" ++ toString n else toString n

/-- Zero-padding to four digits. -/
def pad4 (n : Nat) : String :=
  if n < 10 then "000" ++ toString n
  else if n < 100 then "00" ++ toString n
  else if n < 1000 then "0" ++ toString n
  else toString n

/-- `datetime.isoformat()` for a whole-second value. -/
def isoformat (dt : PyDateTime) : String :=
  pad4 dt.year ++ "-" ++ pad2 dt.month ++ "-" ++ pad2 dt.day ++ "T" ++
    pad2 dt.hour ++ ":" ++ pad2 dt.minute ++ ":" ++ pad2 dt.second

/-- `parse_datetime(dt_str)`: the parsed value rendered as
`{'dateTime': dt.isoformat(), 'timeZone': 'America/Phoenix'}`. -/
def parse_datetime (s : String) : Option GTime :=
  (parse_datetime_dt s).map (fun dt =>
    { dateTime := some (isoformat dt), date := none, timeZone := some "America/Phoenix" })

/-- The character substitution performed by `s.replace('T', ' ')`. -/
def trepl (c : Char) : Char :=
  if c = 'T' then ' ' else c

/-- `s.replace('T', ' ')`. -/
def pyReplaceT (s : String) : String :=
  String.mk (s.data.map trepl)

/-- `s.split('.')[0]`: the prefix before the first dot. -/
def pySplitDotHead (s : String) : String :=
  String.mk (s.data.takeWhile (fun c => !(c == '.')))

/-- The calendar-day successor used by `datetime + timedelta`. -/
def nextDayTriple (y m d : Nat) : Nat × Nat × Nat :=
  if d < daysInMonth m (isLeapYear y) then (y, m, d + 1)
  else if m < 12 then (y, m + 1, 1)
  else (y + 1, 1, 1)

/-- `dt + timedelta(hours=1)`: `datetime` addition is range-checked, so a
result past `datetime.max` (year 9999, `MAXYEAR`) raises `OverflowError`,
embedded as `none`. Only the day rollover can leave the range. -/
def addOneHour (dt : PyDateTime) : Option PyDateTime :=
  if dt.hour < 23 then some { dt with hour := dt.hour + 1 }
  else
    if (nextDayTriple dt.year dt.month dt.day).1 ≤ 9999 then
      some
        { year := (nextDayTriple dt.year dt.month dt.day).1
          month := (nextDayTriple dt.year dt.month dt.day).2.1
          day := (nextDayTriple dt.year dt.month dt.day).2.2
          hour := 0
          minute := dt.minute
          second := dt.second }
    else none

/-- Days in a calendar year. -/
def daysInYear (y : Nat) : Nat :=
  if isLeapYear y then 366 else 365

/-- Days in all years before year `y` (counting from year 0). -/
def daysBeforeYear : Nat → Nat
  | 0 => 0
  | y + 1 => daysBeforeYear y + daysInYear y

/-- Days in the months of a year strictly before month `m`. -/
def daysBeforeMonth : Nat → Bool → Nat
  | 0, _ => 0
  | m + 1, leap => daysBeforeMonth m leap + daysInMonth m leap

/-- Linear day number of a calendar date. -/
def toDayNumber (y m d : Nat) : Nat :=
  daysBeforeYear y + daysBeforeMonth m (isLeapYear y) + (d - 1)

/-- Linear minute count of a datetime, for stating elapsed-time facts. -/
def toMinutes (dt : PyDateTime) : Nat :=
  1440 * toDayNumber dt.year dt.month dt.day + 60 * dt.hour + dt.minute

/-- The timed-event start/end construction of `create_calendar_event.main`:
parse the start (a `ValueError` from the cascade aborts, `none`), override
its timezone with the `--timezone` argument, and when no end is given
re-parse `args.start.replace('T', ' ').split('.')[0]` with
`'%Y-%m-%d %H:%M'` (a `ValueError` here also aborts, `none`) and take one
hour later (an `OverflowError` from the addition aborts too), in the same
timezone. -/
def build_timed_times (startStr tz : String) (endStr : Option String) :
    Option (GTime × GTime) :=
  match parse_datetime startStr with
  | none => none
  | some st0 =>
    let st := { st0 with timeZone := some tz }
    match endStr with
    | some es =>
      match parse_datetime es with
      | none => none
      | some en0 => some (st, { en0 with timeZone := some tz })
    | none =>
      match strptimeCore ' ' false (pySplitDotHead (pyReplaceT startStr)).data with
      | none => none
      | some dt =>
        match addOneHour dt with
        | none => none
        | some dt2 =>
          some (st,
            { dateTime := some (isoformat dt2)
              date := none
              timeZone := some tz })

/-! ## Fixtures for concrete evaluations -/

/-- An environment whose refresh call succeeds. -/
def envR : AuthEnv :=
  { refreshOk := true
    refreshedToken := "new-token"
    flowToken := "flow-token"
    flowRefreshToken := some "flow-refresh" }

/-- An environment whose refresh call is rejected by the remote. -/
def envRFail : AuthEnv :=
  { refreshOk := false
    refreshedToken := "new-token"
    flowToken := "flow-token"
    flowRefreshToken := some "flow-refresh" }

/-- A persisted token that is expired but carries a refresh token. -/
def infoExpired : TokenInfo :=
  { token := some "old-token"
    refreshToken := some "refresh-token"
    expired := true
    grantedScopes := fetchScopes }

/-- A world holding the expired-but-refreshable token. -/
def wExpired : AuthWorld :=
  { tokenFile := some infoExpired
    credentialsFile := true
    refreshCalls := 0
    flowRequests := [] }

/-- A world with no persisted token and a client-secrets file present. -/
def wNoToken : AuthWorld :=
  { tokenFile := none
    credentialsFile := true
    refreshCalls := 0
    flowRequests := [] }

/-- A persisted token that is valid (unexpired) but was granted only the
three Gmail scopes, not the calendar scopes. -/
def infoMailOnly : TokenInfo :=
  { token := some "mail-token"
    refreshToken := some "refresh-token"
    expired := false
    grantedScopes := fetchScopes }

/-- A world holding the mail-only token. -/
def wMailOnly : AuthWorld :=
  { tokenFile := some infoMailOnly
    credentialsFile := true
    refreshCalls := 0
    flowRequests := [] }

/-- A concrete short email. -/
def mailA : MailItem :=
  { id := "id-a", subject := "Hi", sender := "a@example.com"
    date := "Tue, 10 Feb 2026", body := "short" }

/-- A concrete long email. -/
def mailB : MailItem :=
  { id := "id-b", subject := "Newsletter", sender := "b@example.com"
    date := "Tue, 10 Feb 2026"
    body := "a much longer body that pushes the memo content past the demo threshold" }

/-- A concrete memo sink that accepts only short contents: `mailA`'s memo
content (94 characters) is accepted, `mailB`'s (168 characters) is
rejected. -/
def demoSink : String → Bool := fun s => s.length < 120

/-- A concrete timed start. -/
def gStart : GTime :=
  { dateTime := some "2026-02-10T14:00:00", date := none
    timeZone := some "America/Phoenix" }

/-- A concrete timed end. -/
def gEnd : GTime :=
  { dateTime := some "2026-02-10T15:00:00", date := none
    timeZone := some "America/Phoenix" }

/-- A concrete HTML part. -/
def partHtml : MessagePart :=
  { mimeType := "text/html", data := some "<p>hello</p>" }

/-- A concrete plain-text part. -/
def partPlain : MessagePart :=
  { mimeType := "text/plain", data := some "plain body" }

/-- A concrete multipart payload whose top-level body also has data. -/
def payloadMulti : MessagePayload :=
  { headers := [("Subject", "Hi"), ("From", "a@example.com"), ("Date", "D")]
    parts := some [partHtml, partPlain]
    bodyData := some "top-level" }

/-- A concrete payload carrying none of the three standard headers. -/
def payloadNoHeaders : MessagePayload :=
  { headers := [("X-Other", "v")]
    parts := none
    bodyData := some "raw body" }

/-! ## Lemmas about the credential lifecycle -/

/-- A `googleServiceAuth` run either never drives the interactive flow or
drives it once, with exactly its module's scope list. -/
theorem googleServiceAuth_flowRequests (scopes : List String) (env : AuthEnv)
    (w : AuthWorld) :
    (googleServiceAuth scopes env w).2.flowRequests = w.flowRequests ∨
    (googleServiceAuth scopes env w).2.flowRequests = w.flowRequests ++ [scopes] := by
  rcases w with ⟨tf, cf, rc, fr⟩
  unfold googleServiceAuth flowOrExit
  rcases tf with _ | info <;> dsimp <;> split_ifs <;> simp

/-- `send_email.get_gmail_service` never drives the interactive flow. -/
theorem send_service_flowRequests (env : AuthEnv) (w : AuthWorld) :
    (send_get_gmail_service env w).2.flowRequests = w.flowRequests := by
  rcases w with ⟨tf, cf, rc, fr⟩
  unfold send_get_gmail_service
  rcases tf with _ | info
  · rfl
  · dsimp
    split_ifs <;> simp

/-- Behavior of a `googleServiceAuth` run on an expired credential with a
refresh token when the refresh call succeeds: one refresh call, and the
refreshed credential both returned and persisted. -/
theorem googleServiceAuth_refresh_ok (scopes : List String) (env : AuthEnv)
    (w : AuthWorld) (info : TokenInfo)
    (hfile : w.tokenFile = some info)
    (hexp : info.expired = true)
    (href : info.hasRefreshToken = true)
    (hok : env.refreshOk = true) :
    googleServiceAuth scopes env w =
      (.service
        { token := some env.refreshedToken
          refreshToken := info.refreshToken
          expired := false
          scopes := scopes },
       { w with
           refreshCalls := w.refreshCalls + 1
           tokenFile := some
             { token := some env.refreshedToken
               refreshToken := info.refreshToken
               expired := false
               grantedScopes := scopes } }) := by
  rcases w with ⟨tf, cf, rc, fr⟩
  rcases env with ⟨rok, rtk, ftk, frt⟩
  rcases info with ⟨tok, rtok, exp, gs⟩
  simp only at hfile hexp href hok
  subst hfile
  subst hexp
  subst hok
  simp only [TokenInfo.hasRefreshToken] at href
  simp [googleServiceAuth, from_authorized_user_info, Credentials.valid,
    Credentials.hasRefreshToken, Credentials.refreshedBy, Credentials.toJsonInfo, href]

/-- Behavior of a `googleServiceAuth` run on an expired credential with a
refresh token when the refresh call is rejected: the exception propagates
(no interactive flow, nothing persisted). -/
theorem googleServiceAuth_refresh_fail (scopes : List String) (env : AuthEnv)
    (w : AuthWorld) (info : TokenInfo)
    (hfile : w.tokenFile = some info)
    (hexp : info.expired = true)
    (href : info.hasRefreshToken = true)
    (hfail : env.refreshOk = false) :
    googleServiceAuth scopes env w =
      (.crashed, { w with refreshCalls := w.refreshCalls + 1 }) := by
  rcases w with ⟨tf, cf, rc, fr⟩
  rcases env with ⟨rok, rtk, ftk, frt⟩
  rcases info with ⟨tok, rtok, exp, gs⟩
  simp only at hfile hexp href hfail
  subst hfile
  subst hexp
  subst hfail
  simp only [TokenInfo.hasRefreshToken] at href
  simp [googleServiceAuth, from_authorized_user_info, Credentials.valid,
    Credentials.hasRefreshToken, href]

/-! ## Claim C2 -/

/-- C2 (amended): for every expired credential with a refresh token, the
fetch and calendar entry points perform exactly one refresh call and persist
the refreshed credential to `token.json` before returning it; the send entry
point performs the refresh but returns without persisting, leaving the stale
credential in storage. -/
theorem claim2_refresh_persist_amended (env : AuthEnv) (w : AuthWorld)
    (info : TokenInfo)
    (hfile : w.tokenFile = some info)
    (hexp : info.expired = true)
    (href : info.hasRefreshToken = true)
    (hok : env.refreshOk = true) :
    (fetch_get_gmail_service env w =
      (.service
        { token := some env.refreshedToken
          refreshToken := info.refreshToken
          expired := false
          scopes := fetchScopes },
       { w with
           refreshCalls := w.refreshCalls + 1
           tokenFile := some
             { token := some env.refreshedToken
               refreshToken := info.refreshToken
               expired := false
               grantedScopes := fetchScopes } })) ∧
    (calendar_get_calendar_service env w =
      (.service
        { token := some env.refreshedToken
          refreshToken := info.refreshToken
          expired := false
          scopes := calendarScopes },
       { w with
           refreshCalls := w.refreshCalls + 1
           tokenFile := some
             { token := some env.refreshedToken
               refreshToken := info.refreshToken
               expired := false
               grantedScopes := calendarScopes } })) ∧
    (send_get_gmail_service env w =
      (.service
        { token := some env.refreshedToken
          refreshToken := info.refreshToken
          expired := false
          scopes := sendScopes },
       { w with refreshCalls := w.refreshCalls + 1 })) := by
  refine ⟨googleServiceAuth_refresh_ok fetchScopes env w info hfile hexp href hok,
    googleServiceAuth_refresh_ok calendarScopes env w info hfile hexp href hok, ?_⟩
  rcases w with ⟨tf, cf, rc, fr⟩
  rcases env with ⟨rok, rtk, ftk, frt⟩
  rcases info with ⟨tok, rtok, exp, gs⟩
  simp only at hfile hexp href hok
  subst hfile
  subst hexp
  subst hok
  simp only [TokenInfo.hasRefreshToken] at href
  simp [send_get_gmail_service, from_authorized_user_info, Credentials.valid,
    Credentials.hasRefreshToken, Credentials.refreshedBy, href]

/-- Witness for C2 at a concrete expired-with-refresh-token state. -/
theorem claim2_refresh_persist_amended_witness :
    (fetch_get_gmail_service envR wExpired =
      (.service
        { token := some "new-token"
          refreshToken := some "refresh-token"
          expired := false
          scopes := fetchScopes },
       { tokenFile := some
           { token := some "new-token"
             refreshToken := some "refresh-token"
             expired := false
             grantedScopes := fetchScopes }
         credentialsFile := true
         refreshCalls := 1
         flowRequests := [] })) ∧
    (calendar_get_calendar_service envR wExpired =
      (.service
        { token := some "new-token"
          refreshToken := some "refresh-token"
          expired := false
          scopes := calendarScopes },
       { tokenFile := some
           { token := some "new-token"
             refreshToken := some "refresh-token"
             expired := false
             grantedScopes := calendarScopes }
         credentialsFile := true
         refreshCalls := 1
         flowRequests := [] })) ∧
    (send_get_gmail_service envR wExpired =
      (.service
        { token := some "new-token"
          refreshToken := some "refresh-token"
          expired := false
          scopes := sendScopes },
       { tokenFile := some infoExpired
         credentialsFile := true
         refreshCalls := 1
         flowRequests := [] })) :=
  claim2_refresh_persist_amended envR wExpired infoExpired rfl rfl (by decide) rfl

/-- C2 counterexample to the claim as stated: at the send entry point, an
expired credential with a refresh token is refreshed and returned, yet the
persisted `token.json` still holds the stale expired credential after the
call returns. -/
theorem claim2_counterexample :
    (send_get_gmail_service envR wExpired =
      (.service
        { token := some "new-token"
          refreshToken := some "refresh-token"
          expired := false
          scopes := sendScopes },
       { tokenFile := some infoExpired
         credentialsFile := true
         refreshCalls := 1
         flowRequests := [] })) ∧
    infoExpired.expired = true := by
  constructor
  · decide
  · rfl

/-! ## Claim C3 -/

/-- C3 counterexample to the claim as stated: the mail-fetch entry point
drives the interactive grant requesting only its three Gmail scopes, which
is not the full union of scopes the system might ever need (the calendar
scopes are missing). -/
theorem claim3_counterexample :
    (fetch_get_gmail_service envR wNoToken).2.flowRequests = [fetchScopes] ∧
    fetchScopes ≠ fullScopeUnion := by
  constructor
  · decide
  · decide

/-- C3 (amended): whenever an entry point drives the interactive grant it
requests exactly its own module's scope list in one grant: the calendar
entry point requests the full five-scope union, but the mail-fetch entry
point requests only the three mail scopes, and the send entry point never
drives the grant. -/
theorem claim3_scopes_amended (env : AuthEnv) (w : AuthWorld) :
    calendarScopes = fullScopeUnion ∧
    ((fetch_get_gmail_service env w).2.flowRequests = w.flowRequests ∨
      (fetch_get_gmail_service env w).2.flowRequests = w.flowRequests ++ [fetchScopes]) ∧
    ((calendar_get_calendar_service env w).2.flowRequests = w.flowRequests ∨
      (calendar_get_calendar_service env w).2.flowRequests =
        w.flowRequests ++ [calendarScopes]) ∧
    (send_get_gmail_service env w).2.flowRequests = w.flowRequests ∧
    fetchScopes ≠ fullScopeUnion :=
  ⟨rfl, googleServiceAuth_flowRequests fetchScopes env w,
    googleServiceAuth_flowRequests calendarScopes env w,
    send_service_flowRequests env w, by decide⟩

/-! ## Claim C4 -/

/-- C4 (amended): when the refresh call for an expired credential with a
refresh token is rejected, both the fetch and the calendar entry points
crash with the unhandled refresh exception; no fresh interactive
authorization is attempted and nothing is persisted. -/
theorem claim4_refresh_failure_amended (env : AuthEnv) (w : AuthWorld)
    (info : TokenInfo)
    (hfile : w.tokenFile = some info)
    (hexp : info.expired = true)
    (href : info.hasRefreshToken = true)
    (hfail : env.refreshOk = false) :
    fetch_get_gmail_service env w =
      (.crashed, { w with refreshCalls := w.refreshCalls + 1 }) ∧
    calendar_get_calendar_service env w =
      (.crashed, { w with refreshCalls := w.refreshCalls + 1 }) :=
  ⟨googleServiceAuth_refresh_fail fetchScopes env w info hfile hexp href hfail,
    googleServiceAuth_refresh_fail calendarScopes env w info hfile hexp href hfail⟩

/-- Witness for C4 at a concrete rejected-refresh state. -/
theorem claim4_refresh_failure_amended_witness :
    fetch_get_gmail_service envRFail wExpired =
      (.crashed,
       { tokenFile := some infoExpired
         credentialsFile := true
         refreshCalls := 1
         flowRequests := [] }) ∧
    calendar_get_calendar_service envRFail wExpired =
      (.crashed,
       { tokenFile := some infoExpired
         credentialsFile := true
         refreshCalls := 1
         flowRequests := [] }) :=
  claim4_refresh_failure_amended envRFail wExpired infoExpired rfl rfl (by decide) rfl

/-- C4 counterexample to the claim as stated: with a rejected refresh the
fetch entry point crashes with the unhandled exception, and no interactive
authorization is driven. -/
theorem claim4_counterexample :
    (fetch_get_gmail_service envRFail wExpired).1 = .crashed ∧
    (fetch_get_gmail_service envRFail wExpired).2.flowRequests = [] := by
  constructor
  · decide
  · decide

/-! ## Claim C5 -/

/-- C5 (the code bug, evaluated): a cached token that is unexpired but was
granted only the three Gmail scopes does not cover the calendar scope, yet
the calendar entry point returns a service built on that credential
unchanged; the interactive flow is not driven, no error is signalled, and
the credential's recorded grant is never consulted
(`from_authorized_user_info` ignores it). -/
theorem claim5_scope_check_missing :
    ("https://www.googleapis.com/auth/calendar" ∉ infoMailOnly.grantedScopes) ∧
    calendar_get_calendar_service envR wMailOnly =
      (.service
        { token := some "mail-token"
          refreshToken := some "refresh-token"
          expired := false
          scopes := calendarScopes },
       wMailOnly) := by
  constructor
  · decide
  · rfl

/-! ## Lemmas about the sync pipeline trace -/

/-- A `markRead` event for id `i` occurs in the pipeline trace exactly when
some listed email with that id had a successful memo submission. -/
theorem run_pipeline_markRead_mem (sink : String → Bool) (l : List MailItem)
    (i : String) :
    SyncEvent.markRead i ∈ run_pipeline sink l ↔
      ∃ e, e ∈ l ∧ e.id = i ∧ sink (email_to_memo_content e) = true := by
  induction l with
  | nil => simp [run_pipeline]
  | cons e rest ih =>
    rw [run_pipeline]
    by_cases hs : sink (email_to_memo_content e) = true
    · rw [if_pos hs]
      simp only [List.mem_cons]
      constructor
      · rintro (h | h | h)
        · simp at h
        · have hi : i = e.id := by simpa using h
          subst hi
          exact ⟨e, Or.inl rfl, rfl, hs⟩
        · rw [ih] at h
          obtain ⟨e', he', hid, hse⟩ := h
          exact ⟨e', Or.inr he', hid, hse⟩
      · rintro ⟨e', he', hid, hse⟩
        rcases he' with rfl | he'
        · right; left; rw [hid]
        · right; right
          rw [ih]
          exact ⟨e', he', hid, hse⟩
    · rw [if_neg hs]
      simp only [List.mem_cons]
      constructor
      · rintro (h | h)
        · simp at h
        · rw [ih] at h
          obtain ⟨e', he', hid, hse⟩ := h
          exact ⟨e', Or.inr he', hid, hse⟩
      · rintro ⟨e', he', hid, hse⟩
        rcases he' with rfl | he'
        · exact absurd hse hs
        · right
          rw [ih]
          exact ⟨e', he', hid, hse⟩

/-- Every `markRead` event in the pipeline trace is strictly preceded by a
successful `memoCreate` event for the same id. -/
theorem run_pipeline_markRead_preceded (sink : String → Bool) (l : List MailItem) :
    ∀ n i, (run_pipeline sink l).get? n = some (SyncEvent.markRead i) →
      ∃ m, m < n ∧
        (run_pipeline sink l).get? m = some (SyncEvent.memoCreate i true) := by
  induction l with
  | nil => intro n i h; simp [run_pipeline] at h
  | cons e rest ih =>
    intro n i h
    by_cases hs : sink (email_to_memo_content e) = true
    · rw [run_pipeline, if_pos hs] at h
      rcases n with _ | _ | k
      · simp at h
      · simp only [List.get?_cons_succ, List.get?_cons_zero, Option.some_inj] at h
        refine ⟨0, by omega, ?_⟩
        rw [run_pipeline, if_pos hs]
        simp only [List.get?_cons_zero, Option.some_inj]
        rw [show i = e.id by simpa using h.symm]
      · simp only [List.get?_cons_succ] at h
        obtain ⟨m, hm, hg⟩ := ih k i h
        refine ⟨m + 2, by omega, ?_⟩
        rw [run_pipeline, if_pos hs]
        simpa using hg
    · rw [run_pipeline, if_neg hs] at h
      rcases n with _ | k
      · simp at h
      · simp only [List.get?_cons_succ] at h
        obtain ⟨m, hm, hg⟩ := ih k i h
        refine ⟨m + 1, by omega, ?_⟩
        rw [run_pipeline, if_neg hs]
        simpa using hg

/-! ## Claim C1 -/

/-- C1: in a pipeline run over emails with (provider-unique) distinct ids,
`mark_as_read` is invoked for an item exactly when its `create_memo`
submission succeeded, and every `markRead` event is strictly preceded in the
call trace by the successful `memoCreate` event for that id: consumption is
never marked before or without a confirmed note creation. -/
theorem claim1_mark_read_iff_memo_created (emails : List MailItem)
    (sink : String → Bool) (hids : (emails.map MailItem.id).Nodup) :
    (∀ e ∈ emails,
      (SyncEvent.markRead e.id ∈ run_pipeline sink emails ↔
        sink (email_to_memo_content e) = true)) ∧
    (∀ n i, (run_pipeline sink emails).get? n = some (SyncEvent.markRead i) →
      ∃ m, m < n ∧
        (run_pipeline sink emails).get? m =
          some (SyncEvent.memoCreate i true)) := by
  refine ⟨?_, run_pipeline_markRead_preceded sink emails⟩
  intro e he
  rw [run_pipeline_markRead_mem]
  constructor
  · rintro ⟨e', he', hid, hse⟩
    rwa [List.inj_on_of_nodup_map hids he' he hid] at hse
  · intro hse
    exact ⟨e, he, rfl, hse⟩

/-- Witness for C1 on a concrete two-email run where the first submission
succeeds and the second is rejected. -/
theorem claim1_mark_read_iff_memo_created_witness :
    (SyncEvent.markRead mailA.id ∈ run_pipeline demoSink [mailA, mailB] ↔
      demoSink (email_to_memo_content mailA) = true) :=
  (claim1_mark_read_iff_memo_created [mailA, mailB] demoSink (by decide)).1
    mailA (by decide)

/-! ## Claim C6 -/

/-- C6 counterexample to the claim as stated: a `204 No Content` response is
in the 200 class, yet `create_memo` reports it as a rejection, not a
success — success requires status exactly 200. -/
theorem claim6_counterexample :
    (200 ≤ 204 ∧ 204 < 300) ∧
    create_memo (some "memos-token") { status := 204, text := "No Content" } ≠
      MemoResult.created := by
  exact ⟨by omega, by decide⟩

/-- C6 (amended): with the API token configured, a memo creation succeeds
exactly when the response status is `200` (not any other 2xx status), and
every other status is reported as a per-item rejection that retains the
remote status code and response body. -/
theorem claim6_status_exactly_200 (apiToken : Option String)
    (resp : HttpResponse) (htok : pyTruthyStr apiToken = true) :
    (create_memo apiToken resp = MemoResult.created ↔ resp.status = 200) ∧
    (resp.status ≠ 200 →
      create_memo apiToken resp = MemoResult.rejected resp.status resp.text) := by
  constructor
  · by_cases h : resp.status = 200 <;> simp [create_memo, htok, h]
  · intro h
    simp [create_memo, htok, h]

/-- Witness for C6 at a concrete rejected response. -/
theorem claim6_status_exactly_200_witness :
    (create_memo (some "memos-token") { status := 500, text := "boom" } =
        MemoResult.created ↔ (500 : Nat) = 200) ∧
    ((500 : Nat) ≠ 200 →
      create_memo (some "memos-token") { status := 500, text := "boom" } =
        MemoResult.rejected 500 "boom") :=
  claim6_status_exactly_200 (some "memos-token")
    { status := 500, text := "boom" } (by decide)

/-! ## Claim C7 -/

/-- C7: if the reminder lead time is zero or unset, the event body carries
no reminder override (the provider default applies); if it is positive, the
body carries exactly one pop-up reminder firing that many minutes before the
start. -/
theorem claim7_reminder_override (title : String) (st en : GTime)
    (desc loc : Option String) (r : Option Int) :
    ((r = none ∨ r = some 0) →
      (create_event_body title st en desc loc r).reminders = none) ∧
    (∀ n : Int, 0 < n → r = some n →
      (create_event_body title st en desc loc r).reminders =
        some { useDefault := false
               overrides := [{ method := "popup", minutes := n }] }) := by
  constructor
  · rintro (rfl | rfl) <;> simp [create_event_body, pyTruthyOptInt]
  · rintro n hn rfl
    have hne : ¬(n = 0) := by omega
    simp [create_event_body, pyTruthyOptInt, hne]

/-- Witness for C7: no override for a zero lead time, exactly one pop-up
override for the default 30-minute lead time. -/
theorem claim7_reminder_override_witness :
    (create_event_body "Meeting" gStart gEnd none none (some 0)).reminders =
        none ∧
    (create_event_body "Meeting" gStart gEnd none none (some 30)).reminders =
      some { useDefault := false
             overrides := [{ method := "popup", minutes := 30 }] } :=
  ⟨(claim7_reminder_override "Meeting" gStart gEnd none none (some 0)).1
      (Or.inr rfl),
   (claim7_reminder_override "Meeting" gStart gEnd none none (some 30)).2
      30 (by decide) rfl⟩

/-! ## Claim C9 -/

/-- C9: body extraction prefers the first `text/plain` part when a parts
list is present (empty body when no such part decodes), falls back to the
top-level body data when the payload is unstructured, is empty when neither
is available, never fails, and the resulting MailItem body is the extracted
body truncated to 5000 characters. -/
theorem claim9_body_extraction (msgId : String) (p : MessagePayload) :
    (∀ parts part, p.parts = some parts →
      parts.find? (fun q => q.mimeType == "text/plain") = some part →
      extract_body p = decodeData part.data) ∧
    (∀ parts, p.parts = some parts →
      parts.find? (fun q => q.mimeType == "text/plain") = none →
      extract_body p = "") ∧
    (∀ d, p.parts = none → p.bodyData = some d → extract_body p = d) ∧
    (p.parts = none → p.bodyData = none → extract_body p = "") ∧
    (to_mail_item msgId p).body = String.mk ((extract_body p).data.take 5000) ∧
    (to_mail_item msgId p).body.length ≤ 5000 := by
  refine ⟨?_, ?_, ?_, ?_, rfl, ?_⟩
  · intro parts part hp hf
    simp [extract_body, hp, hf]
  · intro parts hp hf
    simp [extract_body, hp, hf]
  · intro d hp hb
    simp [extract_body, hp, hb]
  · intro hp hb
    simp [extract_body, hp, hb]
  · show ((extract_body p).data.take 5000).length ≤ 5000
    rw [List.length_take]
    exact Nat.min_le_left _ _

/-- Witness for C9: the plain-text part wins on a concrete multipart
payload, and the body respects the truncation bound. -/
theorem claim9_body_extraction_witness :
    extract_body payloadMulti = decodeData partPlain.data ∧
    (to_mail_item "m1" payloadMulti).body.length ≤ 5000 :=
  ⟨(claim9_body_extraction "m1" payloadMulti).1 [partHtml, partPlain]
      partPlain rfl (by decide),
   (claim9_body_extraction "m1" payloadMulti).2.2.2.2.2⟩

/-! ## Claim C10 -/

/-- C10: a fetched message whose headers lack `Subject`, `From` or `Date`
yields a MailItem with the fixed defaults `"(no subject)"`,
`"(unknown sender)"` and the empty date string, and the same substituted
values feed the deterministic memo template. -/
theorem claim10_header_defaults (msgId : String) (p : MessagePayload) :
    (headerLookup p.headers "Subject" = none →
      (to_mail_item msgId p).subject = "(no subject)") ∧
    (headerLookup p.headers "From" = none →
      (to_mail_item msgId p).sender = "(unknown sender)") ∧
    (headerLookup p.headers "Date" = none →
      (to_mail_item msgId p).date = "") ∧
    (headerLookup p.headers "Subject" = none →
      headerLookup p.headers "From" = none →
      headerLookup p.headers "Date" = none →
      email_to_memo_content (to_mail_item msgId p) =
        memoTemplate "(unknown sender)" "(no subject)" ""
          ((to_mail_item msgId p).body)) := by
  refine ⟨?_, ?_, ?_, ?_⟩
  · intro h; simp [to_mail_item, h]
  · intro h; simp [to_mail_item, h]
  · intro h; simp [to_mail_item, h]
  · intro h1 h2 h3
    have e1 : (to_mail_item msgId p).subject = "(no subject)" := by
      simp [to_mail_item, h1]
    have e2 : (to_mail_item msgId p).sender = "(unknown sender)" := by
      simp [to_mail_item, h2]
    have e3 : (to_mail_item msgId p).date = "" := by
      simp [to_mail_item, h3]
    rw [email_to_memo_content, e1, e2, e3]

/-- Witness for C10 on the concrete header-less payload. -/
theorem claim10_header_defaults_witness :
    (to_mail_item "m2" payloadNoHeaders).subject = "(no subject)" ∧
    (to_mail_item "m2" payloadNoHeaders).sender = "(unknown sender)" ∧
    (to_mail_item "m2" payloadNoHeaders).date = "" ∧
    email_to_memo_content (to_mail_item "m2" payloadNoHeaders) =
      memoTemplate "(unknown sender)" "(no subject)" ""
        ((to_mail_item "m2" payloadNoHeaders).body) :=
  ⟨(claim10_header_defaults "m2" payloadNoHeaders).1 (by decide),
   (claim10_header_defaults "m2" payloadNoHeaders).2.1 (by decide),
   (claim10_header_defaults "m2" payloadNoHeaders).2.2.1 (by decide),
   (claim10_header_defaults "m2" payloadNoHeaders).2.2.2 (by decide) (by decide)
      (by decide)⟩

/-! ## Lemmas about the datetime embedding -/

/-- `trepl` fixes digit characters. -/
theorem trepl_digit {c : Char} (h : c.isDigit = true) : trepl c = c := by
  have hne : ¬(c = 'T') := by
    intro hc
    subst hc
    exact absurd h (by decide)
  simp [trepl, hne]

/-- `trepl` preserves digit-ness. -/
theorem trepl_isDigit (c : Char) : (trepl c).isDigit = c.isDigit := by
  by_cases hc : c = 'T'
  · subst hc; decide
  · simp [trepl, hc]

/-- Inversion for `pYear`: a success consumes four digit characters. -/
theorem pYear_inv {l : List Char} {y : Nat} {r : List Char}
    (h : pYear l = some (y, r)) :
    ∃ a b c d, l = a :: b :: c :: d :: r ∧ a.isDigit = true ∧ b.isDigit = true ∧
      c.isDigit = true ∧ d.isDigit = true ∧
      y = 1000 * digVal a + 100 * digVal b + 10 * digVal c + digVal d := by
  rcases l with _ | ⟨a, l⟩
  · simp [pYear] at h
  rcases l with _ | ⟨b, l⟩
  · simp [pYear] at h
  rcases l with _ | ⟨c, l⟩
  · simp [pYear] at h
  rcases l with _ | ⟨d, rest⟩
  · simp [pYear] at h
  rw [pYear] at h
  split_ifs at h with hd
  · simp only [Option.some.injEq, Prod.mk.injEq] at h
    obtain ⟨hy, hr⟩ := h
    subst hr
    simp only [Bool.and_eq_true] at hd
    exact ⟨a, b, c, d, rfl, hd.1.1.1, hd.1.1.2, hd.1.2, hd.2, hy.symm⟩

/-- `pYear` commutes with the `replace('T', ' ')` character map on
successes. -/
theorem pYear_map {l : List Char} {y : Nat} {r : List Char}
    (h : pYear l = some (y, r)) :
    pYear (l.map trepl) = some (y, r.map trepl) := by
  obtain ⟨a, b, c, d, rfl, ha, hb, hc, hd, rfl⟩ := pYear_inv h
  simp only [List.map_cons]
  rw [trepl_digit ha, trepl_digit hb, trepl_digit hc, trepl_digit hd]
  rw [pYear]
  simp [ha, hb, hc, hd]

/-- Character budget of a `pYear` success: every character of the input is a
digit or belongs to the unconsumed remainder. -/
theorem pYear_chars {l : List Char} {y : Nat} {r : List Char}
    (h : pYear l = some (y, r)) {Q : Char → Prop}
    (hdig : ∀ c, c.isDigit = true → Q c) (hr : ∀ c ∈ r, Q c) :
    ∀ c ∈ l, Q c := by
  obtain ⟨a, b, c, d, rfl, ha, hb, hc, hd, _⟩ := pYear_inv h
  intro x hx
  simp only [List.mem_cons] at hx
  rcases hx with rfl | rfl | rfl | rfl | hx
  · exact hdig x ha
  · exact hdig x hb
  · exact hdig x hc
  · exact hdig x hd
  · exact hr x hx

/-- The remainder of a `pYear` success is a suffix of the input. -/
theorem pYear_suffix {l : List Char} {y : Nat} {r : List Char}
    (h : pYear l = some (y, r)) : r.IsSuffix l := by
  obtain ⟨a, b, c, d, rfl, _, _, _, _, _⟩ := pYear_inv h
  exact ⟨[a, b, c, d], rfl⟩

/-- `pNum2` commutes with the `replace('T', ' ')` character map on
successes. -/
theorem pNum2_map {two one : Nat → Bool} {l : List Char} {v : Nat}
    {r : List Char} (h : pNum2 two one l = some (v, r)) :
    pNum2 two one (l.map trepl) = some (v, r.map trepl) := by
  rcases l with _ | ⟨a, l⟩
  · simp [pNum2] at h
  rcases l with _ | ⟨b, rest⟩
  · rw [pNum2] at h
    split_ifs at h with h1
    · simp only [Option.some.injEq, Prod.mk.injEq] at h
      obtain ⟨rfl, rfl⟩ := h
      simp only [Bool.and_eq_true] at h1
      simp only [List.map_cons, List.map_nil]
      rw [trepl_digit h1.1]
      rw [pNum2]
      simp [h1.1, h1.2]
  · rw [pNum2] at h
    split_ifs at h with h1 h2
    · simp only [Option.some.injEq, Prod.mk.injEq] at h
      obtain ⟨rfl, rfl⟩ := h
      simp only [Bool.and_eq_true] at h1
      simp only [List.map_cons]
      rw [trepl_digit h1.1.1, trepl_digit h1.1.2]
      rw [pNum2]
      simp [h1.1.1, h1.1.2, h1.2]
    · simp only [Option.some.injEq, Prod.mk.injEq] at h
      obtain ⟨rfl, rfl⟩ := h
      simp only [Bool.and_eq_true] at h2
      have ha := h2.1
      have hcond : ((trepl a).isDigit && (trepl b).isDigit &&
          two (10 * digVal (trepl a) + digVal (trepl b))) = false := by
        by_cases hb : b.isDigit = true
        · rw [trepl_digit ha, trepl_digit hb]
          exact Bool.not_eq_true _ ▸ h1
        · have hb' : (trepl b).isDigit = false := by
            rw [trepl_isDigit]
            exact Bool.not_eq_true _ ▸ hb
          simp [hb']
      simp only [List.map_cons]
      rw [pNum2, hcond]
      simp only [Bool.false_eq_true, if_false]
      rw [trepl_digit ha]
      simp [ha, h2.2]

/-- Character budget of a `pNum2` success. -/
theorem pNum2_chars {two one : Nat → Bool} {l : List Char} {v : Nat}
    {r : List Char} (h : pNum2 two one l = some (v, r)) {Q : Char → Prop}
    (hdig : ∀ c, c.isDigit = true → Q c) (hr : ∀ c ∈ r, Q c) :
    ∀ c ∈ l, Q c := by
  rcases l with _ | ⟨a, l⟩
  · simp [pNum2] at h
  rcases l with _ | ⟨b, rest⟩
  · rw [pNum2] at h
    split_ifs at h with h1
    · simp only [Option.some.injEq, Prod.mk.injEq] at h
      obtain ⟨rfl, rfl⟩ := h
      simp only [Bool.and_eq_true] at h1
      intro x hx
      simp only [List.mem_cons, List.not_mem_nil, or_false] at hx
      subst hx
      exact hdig x h1.1
  · rw [pNum2] at h
    split_ifs at h with h1 h2
    · simp only [Option.some.injEq, Prod.mk.injEq] at h
      obtain ⟨rfl, rfl⟩ := h
      simp only [Bool.and_eq_true] at h1
      intro x hx
      simp only [List.mem_cons] at hx
      rcases hx with rfl | rfl | hx
      · exact hdig x h1.1.1
      · exact hdig x h1.1.2
      · exact hr x hx
    · simp only [Option.some.injEq, Prod.mk.injEq] at h
      obtain ⟨rfl, rfl⟩ := h
      simp only [Bool.and_eq_true] at h2
      intro x hx
      simp only [List.mem_cons] at hx
      rcases hx with rfl | hx
      · exact hdig x h2.1
      · exact hr x (by simpa using hx)

/-- The remainder of a `pNum2` success is a suffix of the input. -/
theorem pNum2_suffix {two one : Nat → Bool} {l : List Char} {v : Nat}
    {r : List Char} (h : pNum2 two one l = some (v, r)) : r.IsSuffix l := by
  rcases l with _ | ⟨a, l⟩
  · simp [pNum2] at h
  rcases l with _ | ⟨b, rest⟩
  · rw [pNum2] at h
    split_ifs at h with h1
    · simp only [Option.some.injEq, Prod.mk.injEq] at h
      obtain ⟨rfl, rfl⟩ := h
      exact ⟨[a], rfl⟩
  · rw [pNum2] at h
    split_ifs at h with h1 h2
    · simp only [Option.some.injEq, Prod.mk.injEq] at h
      obtain ⟨rfl, rfl⟩ := h
      exact ⟨[a, b], rfl⟩
    · simp only [Option.some.injEq, Prod.mk.injEq] at h
      obtain ⟨rfl, rfl⟩ := h
      exact ⟨[a], rfl⟩

/-- Inversion for `pChar`: a success consumes exactly the literal. -/
theorem pChar_inv {t : Char} {l r : List Char} (h : pChar t l = some r) :
    l = t :: r := by
  rcases l with _ | ⟨c, l⟩
  · simp [pChar] at h
  · rw [pChar] at h
    split_ifs at h with hc
    · subst hc
      simp only [Option.some.injEq] at h
      rw [h]

/-- Master inversion for a minute-precision `strptime` success: the input
decomposes into the nine field parses and the validated `datetime`
construction. -/
theorem strptimeHM_inv {sep : Char} {l : List Char} {dt : PyDateTime}
    (h : strptimeCore sep false l = some dt) :
    ∃ y l1 l2 m l3 l4 d l5 l6 hh l7 l8 mi,
      pYear l = some (y, l1) ∧ pChar '-' l1 = some l2 ∧
      pNum2 monthTwoOk monthOneOk l2 = some (m, l3) ∧ pChar '-' l3 = some l4 ∧
      pNum2 dayTwoOk dayOneOk l4 = some (d, l5) ∧ pChar sep l5 = some l6 ∧
      pNum2 hourTwoOk hourOneOk l6 = some (hh, l7) ∧ pChar ':' l7 = some l8 ∧
      pNum2 minSecTwoOk minSecOneOk l8 = some (mi, []) ∧
      mkDateTime y m d hh mi 0 = some dt := by
  unfold strptimeCore at h
  cases hY : pYear l with
  | none => rw [hY] at h; exact Option.noConfusion h
  | some yr =>
  obtain ⟨y, l1⟩ := yr
  simp only [hY, Option.some_bind] at h
  cases hA : pChar '-' l1 with
  | none => rw [hA] at h; exact Option.noConfusion h
  | some l2 =>
  simp only [hA, Option.some_bind] at h
  cases hMo : pNum2 monthTwoOk monthOneOk l2 with
  | none => rw [hMo] at h; exact Option.noConfusion h
  | some mo =>
  obtain ⟨m, l3⟩ := mo
  simp only [hMo, Option.some_bind] at h
  cases hB : pChar '-' l3 with
  | none => rw [hB] at h; exact Option.noConfusion h
  | some l4 =>
  simp only [hB, Option.some_bind] at h
  cases hD : pNum2 dayTwoOk dayOneOk l4 with
  | none => rw [hD] at h; exact Option.noConfusion h
  | some dy =>
  obtain ⟨d, l5⟩ := dy
  simp only [hD, Option.some_bind] at h
  cases hS : pChar sep l5 with
  | none => rw [hS] at h; exact Option.noConfusion h
  | some l6 =>
  simp only [hS, Option.some_bind] at h
  cases hH : pNum2 hourTwoOk hourOneOk l6 with
  | none => rw [hH] at h; exact Option.noConfusion h
  | some hr =>
  obtain ⟨hh, l7⟩ := hr
  simp only [hH, Option.some_bind] at h
  cases hC : pChar ':' l7 with
  | none => rw [hC] at h; exact Option.noConfusion h
  | some l8 =>
  simp only [hC, Option.some_bind] at h
  cases hM : pNum2 minSecTwoOk minSecOneOk l8 with
  | none => rw [hM] at h; exact Option.noConfusion h
  | some ms =>
  obtain ⟨mi, l9⟩ := ms
  simp only [hM, Option.some_bind, Bool.false_eq_true, if_false] at h
  split_ifs at h with hnil
  subst hnil
  exact ⟨y, l1, l2, m, l3, l4, d, l5, l6, hh, l7, l8, mi,
    rfl, hA, hMo, hB, hD, hS, hH, hC, hM, h⟩

/-- Reassembly of a minute-precision `strptime` run from its field
parses. -/
theorem strptimeHM_build {sep : Char} {l l1 l2 l3 l4 l5 l6 l7 l8 : List Char}
    {y m d hh mi : Nat} {dt : PyDateTime}
    (hY : pYear l = some (y, l1)) (hA : pChar '-' l1 = some l2)
    (hMo : pNum2 monthTwoOk monthOneOk l2 = some (m, l3))
    (hB : pChar '-' l3 = some l4)
    (hD : pNum2 dayTwoOk dayOneOk l4 = some (d, l5))
    (hS : pChar sep l5 = some l6)
    (hH : pNum2 hourTwoOk hourOneOk l6 = some (hh, l7))
    (hC : pChar ':' l7 = some l8)
    (hM : pNum2 minSecTwoOk minSecOneOk l8 = some (mi, []))
    (hmk : mkDateTime y m d hh mi 0 = some dt) :
    strptimeCore sep false l = some dt := by
  unfold strptimeCore
  simp only [hY, Option.some_bind, hA, hMo, hB, hD, hS, hH, hC, hM,
    Bool.false_eq_true, if_false, if_pos]
  exact hmk

/-- A minute-precision `strptime` success on a `T`-separated input transfers
along `replace('T', ' ')` to a success of the space-separated format with
the same value. -/
theorem strptimeT_map {l : List Char} {dt : PyDateTime}
    (h : strptimeCore 'T' false l = some dt) :
    strptimeCore ' ' false (l.map trepl) = some dt := by
  obtain ⟨y, l1, l2, m, l3, l4, d, l5, l6, hh, l7, l8, mi,
    hY, hA, hMo, hB, hD, hS, hH, hC, hM, hmk⟩ := strptimeHM_inv h
  have hY' := pYear_map hY
  have hA' : pChar '-' (l1.map trepl) = some (l2.map trepl) := by
    rw [pChar_inv hA]
    simp only [List.map_cons]
    rw [show trepl '-' = '-' from by decide]
    simp [pChar]
  have hMo' := pNum2_map hMo
  have hB' : pChar '-' (l3.map trepl) = some (l4.map trepl) := by
    rw [pChar_inv hB]
    simp only [List.map_cons]
    rw [show trepl '-' = '-' from by decide]
    simp [pChar]
  have hD' := pNum2_map hD
  have hS' : pChar ' ' (l5.map trepl) = some (l6.map trepl) := by
    rw [pChar_inv hS]
    simp only [List.map_cons]
    rw [show trepl 'T' = ' ' from by decide]
    simp [pChar]
  have hH' := pNum2_map hH
  have hC' : pChar ':' (l7.map trepl) = some (l8.map trepl) := by
    rw [pChar_inv hC]
    simp only [List.map_cons]
    rw [show trepl ':' = ':' from by decide]
    simp [pChar]
  have hM' : pNum2 minSecTwoOk minSecOneOk (l8.map trepl) = some (mi, []) := by
    simpa using pNum2_map hM
  exact strptimeHM_build hY' hA' hMo' hB' hD' hS' hH' hC' hM' hmk

/-- Character budget of a minute-precision `strptime` success: every input
character is a digit, a dash, a colon, or the separator. -/
theorem strptimeHM_chars {sep : Char} {l : List Char} {dt : PyDateTime}
    (h : strptimeCore sep false l = some dt) :
    ∀ c ∈ l, c.isDigit = true ∨ c = '-' ∨ c = ':' ∨ c = sep := by
  obtain ⟨y, l1, l2, m, l3, l4, d, l5, l6, hh, l7, l8, mi,
    hY, hA, hMo, hB, hD, hS, hH, hC, hM, _⟩ := strptimeHM_inv h
  have hdig : ∀ c : Char, c.isDigit = true →
      (c.isDigit = true ∨ c = '-' ∨ c = ':' ∨ c = sep) := fun c hc => Or.inl hc
  have q8 : ∀ c ∈ l8, c.isDigit = true ∨ c = '-' ∨ c = ':' ∨ c = sep := by
    refine pNum2_chars hM hdig ?_
    intro c hc
    simp at hc
  have q7 : ∀ c ∈ l7, c.isDigit = true ∨ c = '-' ∨ c = ':' ∨ c = sep := by
    rw [pChar_inv hC]
    intro c hc
    rcases List.mem_cons.mp hc with rfl | hc
    · exact Or.inr (Or.inr (Or.inl rfl))
    · exact q8 c hc
  have q6 := pNum2_chars hH hdig q7
  have q5 : ∀ c ∈ l5, c.isDigit = true ∨ c = '-' ∨ c = ':' ∨ c = sep := by
    rw [pChar_inv hS]
    intro c hc
    rcases List.mem_cons.mp hc with rfl | hc
    · exact Or.inr (Or.inr (Or.inr rfl))
    · exact q6 c hc
  have q4 := pNum2_chars hD hdig q5
  have q3 : ∀ c ∈ l3, c.isDigit = true ∨ c = '-' ∨ c = ':' ∨ c = sep := by
    rw [pChar_inv hB]
    intro c hc
    rcases List.mem_cons.mp hc with rfl | hc
    · exact Or.inr (Or.inl rfl)
    · exact q4 c hc
  have q2 := pNum2_chars hMo hdig q3
  have q1 : ∀ c ∈ l1, c.isDigit = true ∨ c = '-' ∨ c = ':' ∨ c = sep := by
    rw [pChar_inv hA]
    intro c hc
    rcases List.mem_cons.mp hc with rfl | hc
    · exact Or.inr (Or.inl rfl)
    · exact q2 c hc
  exact pYear_chars hY hdig q1

/-- A `strptime` success (with or without seconds) requires the separator
character to occur in the input. -/
theorem strptimeCore_sep_mem {sep : Char} {ws : Bool} {l : List Char}
    {dt : PyDateTime} (h : strptimeCore sep ws l = some dt) : sep ∈ l := by
  unfold strptimeCore at h
  cases hY : pYear l with
  | none => rw [hY] at h; exact Option.noConfusion h
  | some yr =>
  obtain ⟨y, l1⟩ := yr
  simp only [hY, Option.some_bind] at h
  cases hA : pChar '-' l1 with
  | none => rw [hA] at h; exact Option.noConfusion h
  | some l2 =>
  simp only [hA, Option.some_bind] at h
  cases hMo : pNum2 monthTwoOk monthOneOk l2 with
  | none => rw [hMo] at h; exact Option.noConfusion h
  | some mo =>
  obtain ⟨m, l3⟩ := mo
  simp only [hMo, Option.some_bind] at h
  cases hB : pChar '-' l3 with
  | none => rw [hB] at h; exact Option.noConfusion h
  | some l4 =>
  simp only [hB, Option.some_bind] at h
  cases hD : pNum2 dayTwoOk dayOneOk l4 with
  | none => rw [hD] at h; exact Option.noConfusion h
  | some dy =>
  obtain ⟨d, l5⟩ := dy
  simp only [hD, Option.some_bind] at h
  cases hS : pChar sep l5 with
  | none => rw [hS] at h; exact Option.noConfusion h
  | some l6 =>
  have hmem5 : sep ∈ l5 := by
    rw [pChar_inv hS]
    exact List.mem_cons_self sep l6
  have h15 : l5.IsSuffix l4 := pNum2_suffix hD
  have h34 : l4.IsSuffix l3 := by
    rw [pChar_inv hB]
    exact ⟨['-'], rfl⟩
  have h23 : l3.IsSuffix l2 := pNum2_suffix hMo
  have h12 : l2.IsSuffix l1 := by
    rw [pChar_inv hA]
    exact ⟨['-'], rfl⟩
  have h01 : l1.IsSuffix l := pYear_suffix hY
  exact h01.subset (h12.subset (h23.subset (h34.subset (h15.subset hmem5))))

/-- Inversion for the validated `datetime` construction. -/
theorem mkDateTime_inv {y m d h mi s : Nat} {dt : PyDateTime}
    (hp : mkDateTime y m d h mi s = some dt) :
    dt = ⟨y, m, d, h, mi, s⟩ ∧ dtOk y m d h mi s := by
  unfold mkDateTime at hp
  split_ifs at hp with hok
  exact ⟨(Option.some.inj hp).symm, hok⟩

/-- A minute-precision `strptime` success yields a range-valid datetime. -/
theorem strptimeHM_valid {sep : Char} {l : List Char} {dt : PyDateTime}
    (h : strptimeCore sep false l = some dt) :
    dtOk dt.year dt.month dt.day dt.hour dt.minute dt.second := by
  obtain ⟨y, l1, l2, m, l3, l4, d, l5, l6, hh, l7, l8, mi,
    _, _, _, _, _, _, _, _, _, hmk⟩ := strptimeHM_inv h
  obtain ⟨rfl, hok⟩ := mkDateTime_inv hmk
  exact hok

/-- Mapping a function that fixes every element of a list is the
identity. -/
theorem map_eq_self_of_fixed {l : List Char} {f : Char → Char}
    (h : ∀ c ∈ l, f c = c) : l.map f = l := by
  induction l with
  | nil => rfl
  | cons a l ih =>
    simp only [List.map_cons]
    rw [h a (by simp), ih (fun c hc => h c (by simp [hc]))]

/-- `takeWhile` over a list all of whose elements satisfy the predicate is
the identity. -/
theorem takeWhile_eq_self_of {l : List Char} {p : Char → Bool}
    (h : ∀ c ∈ l, p c = true) : l.takeWhile p = l := by
  induction l with
  | nil => rfl
  | cons a l ih =>
    rw [List.takeWhile_cons, if_pos (h a (by simp))]
    rw [ih (fun c hc => h c (by simp [hc]))]

/-- The twelve months of a year sum to its day count. -/
theorem daysBeforeMonth_full_year (leap : Bool) :
    daysBeforeMonth 12 leap + daysInMonth 12 leap =
      (if leap then 366 else 365) := by
  cases leap <;> decide

/-- Stepping to the next calendar day increments the linear day number by
one, for any in-range date. -/
theorem toDayNumber_nextDay (y m d : Nat) (hm1 : 1 ≤ m) (hm2 : m ≤ 12)
    (hd1 : 1 ≤ d) (hd2 : d ≤ daysInMonth m (isLeapYear y)) :
    toDayNumber (nextDayTriple y m d).1 (nextDayTriple y m d).2.1
      (nextDayTriple y m d).2.2 = toDayNumber y m d + 1 := by
  unfold nextDayTriple
  split_ifs with h1 h2
  · simp only [toDayNumber]
    omega
  · have hdm : d = daysInMonth m (isLeapYear y) := le_antisymm hd2 (not_lt.mp h1)
    have hstep : daysBeforeMonth (m + 1) (isLeapYear y) =
        daysBeforeMonth m (isLeapYear y) + daysInMonth m (isLeapYear y) := rfl
    simp only [toDayNumber]
    omega
  · have hm12 : m = 12 := by omega
    subst hm12
    have hdim : daysInMonth 12 (isLeapYear y) = 31 := rfl
    have hd31 : d = 31 := by omega
    subst hd31
    have hY1 : daysBeforeYear (y + 1) = daysBeforeYear y + daysInYear y := rfl
    have hM1 : daysBeforeMonth 1 (isLeapYear (y + 1)) = 0 := rfl
    have hsum : daysBeforeMonth 12 (isLeapYear y) + 31 = daysInYear y := by
      unfold daysInYear
      cases hly : isLeapYear y <;> decide
    simp only [toDayNumber]
    omega

/-- When adding one hour does not overflow `datetime.max`, it advances the
linear minute count by exactly sixty, for any range-valid datetime (the
day, month and year roll over correctly). -/
theorem toMinutes_addOneHour (dt dt2 : PyDateTime)
    (hok : dtOk dt.year dt.month dt.day dt.hour dt.minute dt.second)
    (hadd : addOneHour dt = some dt2) :
    toMinutes dt2 = toMinutes dt + 60 := by
  obtain ⟨hy1, hy2, hm1, hm2, hd1, hd2, hh, hmi, hs⟩ := hok
  unfold addOneHour at hadd
  split_ifs at hadd with hlt hrange
  · obtain rfl := Option.some.inj hadd
    simp only [toMinutes]
    omega
  · obtain rfl := Option.some.inj hadd
    have h23 : dt.hour = 23 := by omega
    have hnext := toDayNumber_nextDay dt.year dt.month dt.day hm1 hm2 hd1 hd2
    simp only [toMinutes]
    omega

/-! ## Claim C8 -/

/-- C8 counterexample to the claim as stated: the start string
`"2026-02-10 14:00:30"` parses successfully under the accepted format
`'%Y-%m-%d %H:%M:%S'`, but with no end given the default-end construction
re-parses the start with the minute-only format and raises `ValueError`
instead of producing an end one hour later. -/
theorem claim8_counterexample :
    parse_datetime_dt "2026-02-10 14:00:30" = some ⟨2026, 2, 10, 14, 0, 30⟩ ∧
    build_timed_times "2026-02-10 14:00:30" "America/Phoenix" none = none := by
  constructor
  · rfl
  · rfl

/-- C8 (amended): for every timed event whose start string parses under one
of the two minute-precision accepted formats (`'%Y-%m-%d %H:%M'` or
`'%Y-%m-%dT%H:%M'`) and for which no end is given: when adding one hour to
the start stays within the `datetime` range (every start except
`9999-12-31 23:MM`), event construction yields an end `dateTime` that is
the ISO rendering of the start plus one hour — exactly sixty minutes later
on the calendar — carrying the same timezone identifier as the start; when
the addition overflows `datetime.max`, the construction raises
`OverflowError` and produces nothing. (Start strings that parse only under
the seconds-bearing formats also make the construction raise, per the
counterexample.) -/
theorem claim8_one_hour_default_end (s tz : String) (dt : PyDateTime)
    (h : strptimeCore ' ' false s.data = some dt ∨
      strptimeCore 'T' false s.data = some dt) :
    (∀ dt2, addOneHour dt = some dt2 →
      build_timed_times s tz none =
        some
          ({ dateTime := some (isoformat dt), date := none
             timeZone := some tz },
           { dateTime := some (isoformat dt2), date := none
             timeZone := some tz }) ∧
      toMinutes dt2 = toMinutes dt + 60) ∧
    (addOneHour dt = none → build_timed_times s tz none = none) := by
  have hvalid : dtOk dt.year dt.month dt.day dt.hour dt.minute dt.second := by
    rcases h with h | h
    · exact strptimeHM_valid h
    · exact strptimeHM_valid h
  have hmain : parse_datetime s =
      some { dateTime := some (isoformat dt), date := none
             timeZone := some "America/Phoenix" } ∧
      strptimeCore ' ' false (pySplitDotHead (pyReplaceT s)).data = some dt := by
    rcases h with h | h
    · have hch := strptimeHM_chars h
      have hfix : ∀ c ∈ s.data, trepl c = c := by
        intro c hc
        rcases hch c hc with hd | rfl | rfl | rfl
        · exact trepl_digit hd
        · decide
        · decide
        · decide
      have hnodot : ∀ c ∈ s.data, (!(c == '.')) = true := by
        intro c hc
        rcases hch c hc with hd | rfl | rfl | rfl
        · have hne : ¬(c = '.') := by
            rintro rfl
            exact absurd hd (by decide)
          simp [hne]
        · decide
        · decide
        · decide
      have hrepl : pyReplaceT s = s := by
        unfold pyReplaceT
        rw [map_eq_self_of_fixed hfix]
      have hsplit : pySplitDotHead s = s := by
        unfold pySplitDotHead
        rw [takeWhile_eq_self_of hnodot]
      have hparse : parse_datetime_dt s = some dt := by
        unfold parse_datetime_dt
        rw [h]
      refine ⟨?_, ?_⟩
      · unfold parse_datetime
        rw [hparse]
        rfl
      · rw [hrepl, hsplit]
        exact h
    · have hch := strptimeHM_chars h
      have hnospace : ¬(' ' ∈ s.data) := by
        intro hmem
        rcases hch ' ' hmem with hd | he | he | he
        · exact absurd hd (by decide)
        · exact absurd he (by decide)
        · exact absurd he (by decide)
        · exact absurd he (by decide)
      have hf1 : strptimeCore ' ' false s.data = none := by
        cases hx : strptimeCore ' ' false s.data with
        | none => rfl
        | some d0 => exact absurd (strptimeCore_sep_mem hx) hnospace
      have hf2 : strptimeCore ' ' true s.data = none := by
        cases hx : strptimeCore ' ' true s.data with
        | none => rfl
        | some d0 => exact absurd (strptimeCore_sep_mem hx) hnospace
      have hparse : parse_datetime_dt s = some dt := by
        unfold parse_datetime_dt
        rw [hf1, hf2, h]
      have hmap := strptimeT_map h
      have hmapped_nodot : ∀ c ∈ s.data.map trepl, (!(c == '.')) = true := by
        intro c hc
        rcases List.mem_map.mp hc with ⟨c0, hc0, rfl⟩
        rcases hch c0 hc0 with hd | rfl | rfl | rfl
        · rw [trepl_digit hd]
          have hne : ¬(c0 = '.') := by
            rintro rfl
            exact absurd hd (by decide)
          simp [hne]
        · decide
        · decide
        · decide
      have hsplit2 : pySplitDotHead (pyReplaceT s) = pyReplaceT s := by
        show String.mk ((s.data.map trepl).takeWhile (fun c => !(c == '.'))) =
          String.mk (s.data.map trepl)
        rw [takeWhile_eq_self_of hmapped_nodot]
      have hmap2 : strptimeCore ' ' false (pyReplaceT s).data = some dt := hmap
      refine ⟨?_, ?_⟩
      · unfold parse_datetime
        rw [hparse]
        rfl
      · rw [hsplit2]
        exact hmap2
  obtain ⟨hpd, hcore⟩ := hmain
  constructor
  · intro dt2 hadd
    refine ⟨?_, toMinutes_addOneHour dt dt2 hvalid hadd⟩
    unfold build_timed_times
    rw [hpd, hcore]
    dsimp only
    rw [hadd]
  · intro hadd
    unfold build_timed_times
    rw [hpd, hcore]
    dsimp only
    rw [hadd]

/-- Witness for C8: on the concrete start `"2026-02-10 14:00"` with no end
the end is `"2026-02-10T15:00:00"` in the start's timezone, sixty minutes
later; on the concrete start `"9999-12-31 23:30"` the one-hour addition
overflows `datetime.max` and the construction produces nothing. -/
theorem claim8_one_hour_default_end_witness :
    (build_timed_times "2026-02-10 14:00" "America/Phoenix" none =
      some
        ({ dateTime := some "2026-02-10T14:00:00", date := none
           timeZone := some "America/Phoenix" },
         { dateTime := some "2026-02-10T15:00:00", date := none
           timeZone := some "America/Phoenix" }) ∧
      toMinutes ⟨2026, 2, 10, 15, 0, 0⟩ =
        toMinutes ⟨2026, 2, 10, 14, 0, 0⟩ + 60) ∧
    build_timed_times "9999-12-31 23:30" "America/Phoenix" none = none :=
  ⟨(claim8_one_hour_default_end "2026-02-10 14:00" "America/Phoenix"
      ⟨2026, 2, 10, 14, 0, 0⟩ (Or.inl rfl)).1 ⟨2026, 2, 10, 15, 0, 0⟩ rfl,
   (claim8_one_hour_default_end "9999-12-31 23:30" "America/Phoenix"
      ⟨9999, 12, 31, 23, 30, 0⟩ (Or.inl rfl)).2 rfl⟩

end OpenInbox
